import Mathlib

/-!
Verification development for the meuat-geo-api geospatial query layer.

The Python sources are embedded shallowly:
* `app/repositories/fazenda_repository.py`  → namespace `FazendaRepository`
* `app/repositories/geo_repository_mixin.py` → namespace `GeoRepositoryMixin`
* `app/controllers/fazenda_controller.py`   → namespace `FazendaController`
* `app/routes/fazendas_routes.py`           → namespace `fazendas_routes`
* `app/schemas/fazenda_schema.py`           → request schemas
* `app/infrastructure/database.py`          → `get_db`

The storage collaborator (PostGIS) is abstracted as a bundle of boolean
spatial predicates over an arbitrary geometry payload type; coordinates and
radii are rationals (the float arithmetic in the source is exact at the
magnitudes the claims touch). A database table is a list of rows in physical
order; SQL OFFSET/LIMIT become `List.drop`/`List.take`.
-/

namespace MeuatGeo

/-- A PostGIS query point, built in the source as
ST_SetSRID(ST_MakePoint(longitude, latitude), 4326). -/
structure Point where
  longitude : ℚ
  latitude : ℚ
deriving DecidableEq

/-- The spatial predicates the storage collaborator supplies, abstract over
the geometry payload `G`: ST_Contains (point-in-polygon), the `&&` bounding-box
overlap against ST_Envelope(ST_Buffer(point, radiusMeters)), and the
spheroid-aware ST_DWithin within-distance test (threshold in meters). -/
structure GeoEngine (G : Type) where
  stContains : G → Point → Bool
  bboxOverlap : G → Point → ℚ → Bool
  stDWithin : G → Point → ℚ → Bool

/-- A SQL WHERE clause keeps a row only when its predicate evaluates to TRUE.
A PostGIS predicate applied to a NULL geometry column evaluates to NULL,
which is not TRUE, so a row with a NULL geometry never satisfies the filter. -/
def sqlSat {G : Type} (p : G → Bool) : Option G → Bool
  | none => false
  | some g => p g

/-- Row of the `fazendas` table (`app/models/fazenda_model.py`): integer
primary key, nullable geometry, and nullable descriptive columns. -/
structure Fazenda (G : Type) where
  id : Nat
  geom : Option G
  cod_tema : Option String
  nom_tema : Option String
  cod_imovel : Option String
  mod_fiscal : Option ℚ
  num_area : Option ℚ
  ind_status : Option String
  ind_tipo : Option String
  des_condic : Option String
  municipio : Option String
  cod_estado : Option String
  dat_criaca : Option String
  dat_atuali : Option String
deriving DecidableEq

/-- Result of a paginated repository call: the page of entities, the reported
total, and how many COUNT queries the call issued against the store (an
instrumentation of the `query.count()` call sites in the source). -/
structure QueryResult (M : Type) where
  entities : List M
  total : Nat
  countQueries : Nat
deriving DecidableEq

namespace FazendaRepository

/-- `FazendaRepository.get_by_id` (fazenda_repository.py lines 13-26):
db.query(Fazenda).filter(Fazenda.id == fazenda_id).first(). -/
def get_by_id {G : Type} (db : List (Fazenda G)) (fazenda_id : Nat) :
    Option (Fazenda G) :=
  (db.filter (fun f => f.id == fazenda_id)).head?

/-- The filtered set of `FazendaRepository.get_by_point` (lines 50-52): rows
satisfying ST_Contains(Fazenda.geom, ponto). -/
def pointMatches {G : Type} (E : GeoEngine G) (db : List (Fazenda G))
    (latitude longitude : ℚ) : List (Fazenda G) :=
  let ponto : Point := ⟨longitude, latitude⟩
  db.filter (fun f => sqlSat (fun g => E.stContains g ponto) f.geom)

/-- `FazendaRepository.get_by_point` (lines 28-61): filter by containment,
count unconditionally, then OFFSET (page-1)*page_size LIMIT page_size.
The route validates page ≥ 1, matching the truncated subtraction here. -/
def get_by_point {G : Type} (E : GeoEngine G) (db : List (Fazenda G))
    (latitude longitude : ℚ) (page page_size : Nat) : QueryResult (Fazenda G) :=
  let query := pointMatches E db latitude longitude
  let total := query.length
  let offset := (page - 1) * page_size
  let fazendas := (query.drop offset).take page_size
  ⟨fazendas, total, 1⟩

/-- The filtered set of `FazendaRepository.get_by_radius` (lines 92-99): the
single predicate ST_DWithin(Fazenda.geom, ponto, raio_metros, True) with the
radius converted to meters (line 86). No bounding-box stage and no radius
validation appear in this function. -/
def radiusMatches {G : Type} (E : GeoEngine G) (db : List (Fazenda G))
    (latitude longitude raio_km : ℚ) : List (Fazenda G) :=
  let ponto : Point := ⟨longitude, latitude⟩
  let raio_metros := raio_km * 1000
  db.filter (fun f => sqlSat (fun g => E.stDWithin g ponto raio_metros) f.geom)

/-- `FazendaRepository.get_by_radius` (lines 63-108): filter by ST_DWithin,
count unconditionally, then OFFSET/LIMIT. -/
def get_by_radius {G : Type} (E : GeoEngine G) (db : List (Fazenda G))
    (latitude longitude raio_km : ℚ) (page page_size : Nat) :
    QueryResult (Fazenda G) :=
  let query := radiusMatches E db latitude longitude raio_km
  let total := query.length
  let offset := (page - 1) * page_size
  let fazendas := (query.drop offset).take page_size
  ⟨fazendas, total, 1⟩

/-- The attribute table of class FazendaRepository: fazenda_repository.py
defines exactly get_by_id, get_by_point and get_by_radius. A getattr with any
other name raises AttributeError; in particular get_by_cod_imovel is absent. -/
def hasAttr (name : String) : Bool :=
  name == "get_by_id" || name == "get_by_point" || name == "get_by_radius"

/-- Modelled from the spec: the lookup by property code that
fazenda_controller.py line 45 invokes as `FazendaRepository.get_by_cod_imovel`
but that fazenda_repository.py never defines. Per the spec it returns the
zero, one or many rows sharing the requested cod_imovel. -/
def get_by_cod_imovel_specModel {G : Type} (db : List (Fazenda G))
    (cod_imovel : String) : List (Fazenda G) :=
  db.filter (fun f => f.cod_imovel == some cod_imovel)

end FazendaRepository

namespace GeoRepositoryMixin

/-- `GeoRepositoryMixin._validate_radius` (geo_repository_mixin.py lines
20-25): ValueError when the radius is ≤ 0 or > 20000 km. -/
def _validate_radius (radius_km : ℚ) : Except String Unit :=
  if radius_km ≤ 0 then .error "Raio deve ser maior que zero"
  else if radius_km > 20000 then .error "Raio muito grande (maximo: 20000 km)"
  else .ok ()

/-- `GeoRepositoryMixin._get_paginated_total` (lines 27-47), instrumented:
returns the reported total together with the number of COUNT queries issued.
`queryCount` is the value `query.count()` would return — the length of the
filtered set — and the COUNT is executed only on the else branch. -/
def _get_paginated_total {M : Type} (queryCount : Nat) (page page_size : Nat)
    (entities : List M) : Nat × Nat :=
  if page = 1 ∧ entities.length < page_size then (entities.length, 0)
  else (queryCount, 1)

/-- The filtered set of `GeoRepositoryMixin.get_by_point` (lines 82-84). The
mixin is generic over the model; `geom_field` plays the role of
getattr(self.model, geom_field_name). -/
def pointMatches {M G : Type} (E : GeoEngine G) (geom_field : M → Option G)
    (db : List M) (latitude longitude : ℚ) : List M :=
  let ponto : Point := ⟨longitude, latitude⟩
  db.filter (fun m => sqlSat (fun g => E.stContains g ponto) (geom_field m))

/-- `GeoRepositoryMixin.get_by_point` (lines 49-93): containment filter,
OFFSET/LIMIT, then the optimized total computation. -/
def get_by_point {M G : Type} (E : GeoEngine G) (geom_field : M → Option G)
    (db : List M) (latitude longitude : ℚ) (page page_size : Nat) :
    QueryResult M :=
  let query := pointMatches E geom_field db latitude longitude
  let offset := (page - 1) * page_size
  let entities := (query.drop offset).take page_size
  let tc := _get_paginated_total query.length page page_size entities
  ⟨entities, tc.1, tc.2⟩

/-- The filtered set of `GeoRepositoryMixin.get_by_radius` (lines 131-158):
the `&&` bounding-box overlap against the envelope of a buffer of
radius_km*1000 meters AND the ST_DWithin geodesic test at radius_km*1000
meters, both over the geography column (getattr(self.model, "geog")). -/
def radiusMatches {M G : Type} (E : GeoEngine G) (geog_field : M → Option G)
    (db : List M) (latitude longitude radius_km : ℚ) : List M :=
  let ponto : Point := ⟨longitude, latitude⟩
  let radius_meters := radius_km * 1000
  db.filter (fun m =>
    sqlSat (fun g => E.bboxOverlap g ponto radius_meters) (geog_field m) &&
    sqlSat (fun g => E.stDWithin g ponto radius_meters) (geog_field m))

/-- `GeoRepositoryMixin.get_by_radius` (lines 95-167): validate the radius
(raising before any query when invalid), convert km to meters, apply the
two-stage filter, OFFSET/LIMIT, then the optimized total computation. -/
def get_by_radius {M G : Type} (E : GeoEngine G) (geog_field : M → Option G)
    (db : List M) (latitude longitude radius_km : ℚ) (page page_size : Nat) :
    Except String (QueryResult M) :=
  match _validate_radius radius_km with
  | .error e => .error e
  | .ok _ =>
    let query := radiusMatches E geog_field db latitude longitude radius_km
    let offset := (page - 1) * page_size
    let entities := (query.drop offset).take page_size
    let tc := _get_paginated_total query.length page page_size entities
    .ok ⟨entities, tc.1, tc.2⟩

end GeoRepositoryMixin

/-- Response schema `FazendaResponse` (fazenda_schema.py lines 6-53): the
descriptive columns without the geometry. -/
structure FazendaResponse where
  id : Nat
  cod_tema : Option String
  nom_tema : Option String
  cod_imovel : Option String
  mod_fiscal : Option ℚ
  num_area : Option ℚ
  ind_status : Option String
  ind_tipo : Option String
  des_condic : Option String
  municipio : Option String
  cod_estado : Option String
  dat_criaca : Option String
  dat_atuali : Option String
deriving DecidableEq

/-- `FazendaResponse.model_validate` on a row: copy the descriptive
attributes (the date columns are already stored as text in the model, so the
before-validator is the identity on them). -/
def FazendaResponse.model_validate {G : Type} (f : Fazenda G) : FazendaResponse :=
  ⟨f.id, f.cod_tema, f.nom_tema, f.cod_imovel, f.mod_fiscal, f.num_area,
   f.ind_status, f.ind_tipo, f.des_condic, f.municipio, f.cod_estado,
   f.dat_criaca, f.dat_atuali⟩

/-- `PaginatedResponse` (the envelope the controllers build). -/
structure PaginatedResponse (A : Type) where
  items : List A
  total : Nat
  page : Nat
  page_size : Nat
  total_pages : Nat
deriving DecidableEq

/-- Outcome of a controller call: a successful value, or an HTTPException
with a status code and a detail string. -/
inductive Outcome (A : Type) where
  | success (value : A)
  | httpError (status_code : Nat) (detail : String)
deriving DecidableEq

/-- math.ceil(total / page_size) as the controllers compute it
(fazenda_controller.py lines 136 and 182): the ceiling of the exact rational
quotient, as a natural number. -/
def pyCeil (total page_size : Nat) : Nat :=
  (Int.ceil ((total : ℚ) / (page_size : ℚ))).toNat

/-- `ceil(total / page_size) if total > 0 else 0` (lines 136 and 182). -/
def totalPagesOf (total page_size : Nat) : Nat :=
  if 0 < total then pyCeil total page_size else 0

namespace FazendaController

/-- `FazendaController.get_fazendas_by_point` (fazenda_controller.py lines
109-152). `repoResult` is the outcome of the FazendaRepository.get_by_point
call inside the try block: `.error e` models an exception whose str(e) is
`e`, which the except-arm wraps into a 500 detail. -/
def get_fazendas_by_point {G : Type}
    (repoResult : Except String (List (Fazenda G) × Nat))
    (page page_size : Nat) : Outcome (PaginatedResponse FazendaResponse) :=
  match repoResult with
  | .error e => .httpError 500 ("Erro ao buscar fazendas por ponto: " ++ e)
  | .ok (fazendas, total) =>
    .success ⟨fazendas.map FazendaResponse.model_validate, total, page,
              page_size, totalPagesOf total page_size⟩

/-- `FazendaController.get_fazendas_by_radius` (lines 154-198), same shape as
the point controller with its own 500 detail text. -/
def get_fazendas_by_radius {G : Type}
    (repoResult : Except String (List (Fazenda G) × Nat))
    (page page_size : Nat) : Outcome (PaginatedResponse FazendaResponse) :=
  match repoResult with
  | .error e => .httpError 500 ("Erro ao buscar fazendas por raio: " ++ e)
  | .ok (fazendas, total) =>
    .success ⟨fazendas.map FazendaResponse.model_validate, total, page,
              page_size, totalPagesOf total page_size⟩

/-- `FazendaController.get_fazenda_by_id` (lines 67-107): 404 with the id in
the detail when the repository returns None, 500 wrapping str(e) when the
repository call raises, success otherwise. -/
def get_fazenda_by_id {G : Type}
    (repoResult : Except String (Option (Fazenda G))) (fazenda_id : Nat) :
    Outcome FazendaResponse :=
  match repoResult with
  | .error e => .httpError 500 ("Erro ao buscar fazenda: " ++ e)
  | .ok none =>
    .httpError 404 ("Fazenda com ID " ++ toString fazenda_id ++ " não encontrada")
  | .ok (some f) => .success (FazendaResponse.model_validate f)

/-- Parameter count of `FazendaController.get_fazenda_by_cod_imovel` as
defined on line 27: (db, cod_imovel). -/
def get_fazenda_by_cod_imovel_paramCount : Nat := 2

/-- `FazendaController.get_fazenda_by_cod_imovel` (lines 26-65). The try
block first evaluates the attribute access FazendaRepository.get_by_cod_imovel;
the class defines no such attribute (`FazendaRepository.hasAttr`), so Python
raises AttributeError and the except-Exception arm returns a 500. The branch
under hasAttr = true carries the documented intent (404 exactly on an empty
result) and is unreachable. -/
def get_fazenda_by_cod_imovel {G : Type} (db : List (Fazenda G))
    (cod_imovel : String) : Outcome (List FazendaResponse) :=
  if FazendaRepository.hasAttr "get_by_cod_imovel" then
    let fazendas := FazendaRepository.get_by_cod_imovel_specModel db cod_imovel
    if fazendas.isEmpty then
      .httpError 404 ("Fazenda com código " ++ cod_imovel ++ " não encontrada")
    else
      .success (fazendas.map FazendaResponse.model_validate)
  else
    .httpError 500
      "Erro ao buscar fazenda: type object FazendaRepository has no attribute get_by_cod_imovel"

end FazendaController

/-- Request schema `RaioBuscaRequest` (fazenda_schema.py lines 109-115):
latitude in [-90, 90], longitude in [-180, 180], raio_km strictly positive.
No upper bound on raio_km is declared. -/
structure RaioBuscaRequest where
  latitude : ℚ
  longitude : ℚ
  raio_km : ℚ
deriving DecidableEq

/-- The pydantic validation of `RaioBuscaRequest`: exactly the Field bounds
declared in the schema. -/
def RaioBuscaRequest.validates (r : RaioBuscaRequest) : Bool :=
  decide (-90 ≤ r.latitude) && decide (r.latitude ≤ 90) &&
  decide (-180 ≤ r.longitude) && decide (r.longitude ≤ 180) &&
  decide (0 < r.raio_km)

namespace fazendas_routes

/-- Number of positional arguments fazendas_routes.py line 48 passes to the
controller: (db, cod_imovel, page, page_size). -/
def cod_imovel_argCount : Nat := 4

/-- The GET /fazendas/:cod_imovel handler (fazendas_routes.py lines 15-48):
it evaluates FazendaController.get_fazenda_by_cod_imovel(db, cod_imovel,
page, page_size). A Python call whose argument count differs from the callee
parameter count raises TypeError at the call site — outside any try block —
which FastAPI surfaces as a bare 500 Internal Server Error. -/
def get_fazenda_by_cod_imovel {G : Type} (db : List (Fazenda G))
    (cod_imovel : String) (page page_size : Nat) :
    Outcome (List FazendaResponse) :=
  if cod_imovel_argCount == FazendaController.get_fazenda_by_cod_imovel_paramCount then
    FazendaController.get_fazenda_by_cod_imovel db cod_imovel
  else
    .httpError 500 "Internal Server Error"

/-- The POST /fazendas/busca-ponto serving path on a healthy storage engine
(fazendas_routes.py lines 51-88): route → controller →
FazendaRepository.get_by_point. -/
def servePoint {G : Type} (E : GeoEngine G) (db : List (Fazenda G))
    (latitude longitude : ℚ) (page page_size : Nat) :
    Outcome (PaginatedResponse FazendaResponse) :=
  let r := FazendaRepository.get_by_point E db latitude longitude page page_size
  FazendaController.get_fazendas_by_point (.ok (r.entities, r.total)) page page_size

/-- The POST /fazendas/busca-raio serving path on a healthy storage engine
(fazendas_routes.py lines 91-129): pydantic validation of the body (422 with
the generic handler detail from exception_handlers.py on failure), then
route → controller → FazendaRepository.get_by_radius. -/
def serveRadius {G : Type} (E : GeoEngine G) (db : List (Fazenda G))
    (req : RaioBuscaRequest) (page page_size : Nat) :
    Outcome (PaginatedResponse FazendaResponse) :=
  if req.validates then
    let r := FazendaRepository.get_by_radius E db req.latitude req.longitude
      req.raio_km page page_size
    FazendaController.get_fazendas_by_radius (.ok (r.entities, r.total)) page page_size
  else
    .httpError 422 "Entrada inválida"

/-- The deprecated identifier lookup path on a healthy storage engine:
controller → FazendaRepository.get_by_id. -/
def serveById {G : Type} (db : List (Fazenda G)) (fazenda_id : Nat) :
    Outcome FazendaResponse :=
  FazendaController.get_fazenda_by_id (.ok (FazendaRepository.get_by_id db fazenda_id))
    fazenda_id

end fazendas_routes

/-- What a request body does with the session it was handed: finish normally
with a value, or raise an exception. -/
inductive BodyResult (A : Type) where
  | ok (a : A)
  | exn (msg : String)
deriving DecidableEq

/-- Observable outcome of one pass through `get_db`: the propagated body
result, and whether the session was closed by the time control left the
generator. -/
structure RequestTrace (A : Type) where
  result : BodyResult A
  sessionClosed : Bool
deriving DecidableEq

/-- `get_db` (infrastructure/database.py lines 36-57): db = SessionLocal();
try: yield db; finally: db.close(). The body receives the fresh session
handle; whichever way it exits, the finally clause closes the session and the
body outcome (value or exception) propagates unchanged. -/
def get_db {A : Type} (body : Nat → BodyResult A) : RequestTrace A :=
  let db : Nat := 0
  match body db with
  | .ok a => ⟨.ok a, true⟩
  | .exn m => ⟨.exn m, true⟩

/-- A storage engine over the trivial geometry payload whose predicates all
hold: every row with a non-null geometry matches every query. -/
def unitEngine : GeoEngine Unit :=
  ⟨fun _ _ => true, fun _ _ _ => true, fun _ _ _ => true⟩

/-- A storage engine over the trivial geometry payload whose bounding-box
test always fails while its ST_DWithin test always holds. -/
def mismatchEngine : GeoEngine Unit :=
  ⟨fun _ _ => true, fun _ _ _ => false, fun _ _ _ => true⟩

/-- A sample row with a geometry, patterned on the documented example
fazenda. -/
def sampleFazenda : Fazenda Unit :=
  ⟨1, some (), some "AREA_IMOVEL", some "Area do Imovel",
   some "SP-3500105-279714F410E746B0B440EFAD4B0933D4", some (1912/10000),
   some (38239/10000), some "AT", some "IRU", some "Aguardando analise",
   some "Adamantina", some "SP", some "2025-10-09", some "2025-10-09"⟩

/-- A sample row whose geometry column is NULL. -/
def nullGeomFazenda : Fazenda Unit :=
  ⟨2, none, none, none, some "SP-3500105-279714F410E746B0B440EFAD4B0933D4",
   none, none, none, none, none, none, none, none, none⟩

/-- A row satisfying a geometry predicate lifted through SQL NULL semantics
has a non-null geometry. -/
theorem sqlSat_isSome {G : Type} {p : G → Bool} {o : Option G}
    (h : sqlSat p o = true) : o.isSome = true := by
  cases o with
  | none => exact absurd h (by simp [sqlSat])
  | some g => rfl

/-- Pre-filtering the table to the rows with a non-null geometry does not
change a filter lifted through SQL NULL semantics. -/
theorem filter_sqlSat_filter_isSome {G : Type} (p : G → Bool)
    (db : List (Fazenda G)) :
    ((db.filter (fun f => f.geom.isSome)).filter (fun f => sqlSat p f.geom))
      = db.filter (fun f => sqlSat p f.geom) := by
  rw [List.filter_filter]
  congr 1
  funext f
  cases hg : f.geom <;> simp [sqlSat, hg]

/-- C10: a parcel record whose geometry attribute is null is never included
in the items nor counted in the total of a point-containment or
radius-proximity query: deleting the null-geometry rows from the table
changes neither query result, and every returned item has a non-null
geometry. -/
theorem C10_null_geom_excluded {G : Type} (E : GeoEngine G)
    (db : List (Fazenda G)) (latitude longitude raio_km : ℚ)
    (page page_size : Nat) :
    FazendaRepository.get_by_point E (db.filter (fun f => f.geom.isSome))
        latitude longitude page page_size
      = FazendaRepository.get_by_point E db latitude longitude page page_size
    ∧ FazendaRepository.get_by_radius E (db.filter (fun f => f.geom.isSome))
        latitude longitude raio_km page page_size
      = FazendaRepository.get_by_radius E db latitude longitude raio_km page page_size
    ∧ (FazendaRepository.get_by_point E db latitude longitude page page_size).entities.all
        (fun f => f.geom.isSome) = true
    ∧ (FazendaRepository.get_by_radius E db latitude longitude raio_km page page_size).entities.all
        (fun f => f.geom.isSome) = true := by
  refine ⟨?_, ?_, ?_, ?_⟩
  · simp only [FazendaRepository.get_by_point, FazendaRepository.pointMatches,
      filter_sqlSat_filter_isSome]
  · simp only [FazendaRepository.get_by_radius, FazendaRepository.radiusMatches,
      filter_sqlSat_filter_isSome]
  · rw [List.all_eq_true]
    intro f hf
    have hmem : f ∈ FazendaRepository.pointMatches E db latitude longitude :=
      List.mem_of_mem_drop (List.mem_of_mem_take hf)
    exact sqlSat_isSome (List.mem_filter.mp hmem).2
  · rw [List.all_eq_true]
    intro f hf
    have hmem : f ∈ FazendaRepository.radiusMatches E db latitude longitude raio_km :=
      List.mem_of_mem_drop (List.mem_of_mem_take hf)
    exact sqlSat_isSome (List.mem_filter.mp hmem).2

/-- C9: the session acquired at the start of a request is closed on every
exit path — normal return or exception — and the body outcome propagates
unchanged. -/
theorem C9_session_closed {A : Type} (body : Nat → BodyResult A) :
    (get_db body).sessionClosed = true ∧ (get_db body).result = body 0 := by
  unfold get_db
  cases h : body 0 <;> simp [h]

/-- C4: the code is broken on the property-code path. The GET
/fazendas/:cod_imovel route invokes the controller with four positional
arguments while the controller accepts two, and the controller in turn names
a repository method that fazenda_repository.py never defines; every request
to this endpoint therefore ends in a 500, never in a paginated envelope and
never in a 404 reserved for an empty result. -/
theorem C4_cod_imovel_always_500 {G : Type} (db : List (Fazenda G))
    (cod_imovel : String) (page page_size : Nat) :
    fazendas_routes.get_fazenda_by_cod_imovel db cod_imovel page page_size
      = .httpError 500 "Internal Server Error"
    ∧ FazendaController.get_fazenda_by_cod_imovel db cod_imovel
      = .httpError 500
          "Erro ao buscar fazenda: type object FazendaRepository has no attribute get_by_cod_imovel" :=
  ⟨rfl, rfl⟩

/-- C8 counterexample: a storage failure whose exception text is
"connection refused" surfaces with that text verbatim inside the user-facing
500 detail of the point-containment controller, contrary to the claim that
the original failure detail is never placed in the user-facing error
detail. -/
theorem C8_counterexample :
    FazendaController.get_fazendas_by_point
        (Except.error "connection refused" : Except String (List (Fazenda Unit) × Nat)) 1 10
      = .httpError 500 ("Erro ao buscar fazendas por ponto: " ++ "connection refused") := rfl

/-- C8 amended: every storage-layer failure surfaces as a 500 whose detail is
a fixed endpoint-specific text followed by the original failure text
verbatim (nothing is logged by the controllers). -/
theorem C8_amended_error_detail {G : Type} (e : String) (page page_size fazenda_id : Nat) :
    FazendaController.get_fazendas_by_point
        (Except.error e : Except String (List (Fazenda G) × Nat)) page page_size
      = .httpError 500 ("Erro ao buscar fazendas por ponto: " ++ e)
    ∧ FazendaController.get_fazendas_by_radius
        (Except.error e : Except String (List (Fazenda G) × Nat)) page page_size
      = .httpError 500 ("Erro ao buscar fazendas por raio: " ++ e)
    ∧ FazendaController.get_fazenda_by_id
        (Except.error e : Except String (Option (Fazenda G))) fazenda_id
      = .httpError 500 ("Erro ao buscar fazenda: " ++ e) :=
  ⟨rfl, rfl, rfl⟩

/-- C1 counterexample: on the serving path, FazendaRepository.get_by_point
issues a COUNT query even on an undersized first page (page 1 returning 1
record with page_size 10), contrary to the claim that no separate count
query is executed in that case. -/
theorem C1_counterexample :
    (FazendaRepository.get_by_point unitEngine [sampleFazenda]
        (-23.5505) (-46.6333) 1 10).entities.length < 10
    ∧ (FazendaRepository.get_by_point unitEngine [sampleFazenda]
        (-23.5505) (-46.6333) 1 10).countQueries = 1 := by
  constructor
  · decide
  · rfl

/-- C2 counterexample: the serving-path radius query
(FazendaRepository.get_by_radius) returns a record that fails the Stage-1
bounding-box overlap test, so its result set is not the set of records
satisfying both the bounding-box test and the geodesic test. -/
theorem C2_counterexample :
    (FazendaRepository.get_by_radius mismatchEngine [sampleFazenda] 0 0 1 1 10).entities
      ≠ [sampleFazenda].filter (fun f =>
          sqlSat (fun g => mismatchEngine.bboxOverlap g ⟨0, 0⟩ (1 * 1000)) f.geom &&
          sqlSat (fun g => mismatchEngine.stDWithin g ⟨0, 0⟩ (1 * 1000)) f.geom) := by
  decide

/-- C3 counterexample: a radius of 20000.1 km passes the only validation on
the serving path of the radius endpoint (the pydantic schema, which bounds
the radius below but not above), and the storage query executes and answers
with a success envelope instead of an invalid-parameter rejection. -/
theorem C3_counterexample :
    RaioBuscaRequest.validates ⟨-23.5505, -46.6333, 20000.1⟩ = true
    ∧ fazendas_routes.serveRadius unitEngine ([] : List (Fazenda Unit))
        ⟨-23.5505, -46.6333, 20000.1⟩ 1 10
      = .success ⟨[], 0, 1, 10, 0⟩ := by
  have hval : RaioBuscaRequest.validates ⟨-23.5505, -46.6333, 20000.1⟩ = true := by
    unfold RaioBuscaRequest.validates
    simp only [Bool.and_eq_true, decide_eq_true_eq]
    norm_num
  refine ⟨hval, ?_⟩
  simp [fazendas_routes.serveRadius, hval, FazendaRepository.get_by_radius,
    FazendaRepository.radiusMatches, FazendaController.get_fazendas_by_radius,
    totalPagesOf]

/-- C1 amended: the count-avoidance optimization lives in
GeoRepositoryMixin: its point and radius queries skip the COUNT exactly when
the requested page is 1 and the returned page is strictly smaller than
page_size, and their reported total always equals the true number of
matching records. The serving-path FazendaRepository queries instead issue a
COUNT unconditionally, and their reported total also equals the true number
of matching records. -/
theorem C1_amended_count_strategy {M G : Type} (E : GeoEngine G)
    (geom_field geog_field : M → Option G) (db : List M)
    (db2 : List (Fazenda G)) (lat lon r : ℚ) (page page_size : Nat) :
    ((GeoRepositoryMixin.get_by_point E geom_field db lat lon page page_size).total
        = (GeoRepositoryMixin.pointMatches E geom_field db lat lon).length
      ∧ ((GeoRepositoryMixin.get_by_point E geom_field db lat lon page page_size).countQueries = 0
        ↔ page = 1
          ∧ (GeoRepositoryMixin.get_by_point E geom_field db lat lon page page_size).entities.length
              < page_size))
    ∧ (∀ q, GeoRepositoryMixin.get_by_radius E geog_field db lat lon r page page_size
          = .ok q →
        q.total = (GeoRepositoryMixin.radiusMatches E geog_field db lat lon r).length
        ∧ (q.countQueries = 0 ↔ page = 1 ∧ q.entities.length < page_size))
    ∧ (FazendaRepository.get_by_point E db2 lat lon page page_size).countQueries = 1
    ∧ (FazendaRepository.get_by_radius E db2 lat lon r page page_size).countQueries = 1
    ∧ (FazendaRepository.get_by_point E db2 lat lon page page_size).total
        = (FazendaRepository.pointMatches E db2 lat lon).length
    ∧ (FazendaRepository.get_by_radius E db2 lat lon r page page_size).total
        = (FazendaRepository.radiusMatches E db2 lat lon r).length := by
  have hcore : ∀ (l : List M),
      (GeoRepositoryMixin._get_paginated_total l.length page page_size
          ((l.drop ((page - 1) * page_size)).take page_size)).1 = l.length
      ∧ ((GeoRepositoryMixin._get_paginated_total l.length page page_size
          ((l.drop ((page - 1) * page_size)).take page_size)).2 = 0
        ↔ page = 1
          ∧ ((l.drop ((page - 1) * page_size)).take page_size).length < page_size) := by
    intro l
    unfold GeoRepositoryMixin._get_paginated_total
    by_cases hc : page = 1
        ∧ ((l.drop ((page - 1) * page_size)).take page_size).length < page_size
    · rw [if_pos hc]
      obtain ⟨hp1, hlt⟩ := hc
      subst hp1
      constructor
      · simp only [Nat.sub_self, Nat.zero_mul, List.drop_zero, List.length_take] at hlt ⊢
        omega
      · simpa using hlt
    · rw [if_neg hc]
      exact ⟨rfl, iff_of_false one_ne_zero hc⟩
  refine ⟨⟨(hcore _).1, (hcore _).2⟩, ?_, rfl, rfl, rfl, rfl⟩
  intro q hq
  unfold GeoRepositoryMixin.get_by_radius at hq
  rcases hv : GeoRepositoryMixin._validate_radius r with e | u
  · rw [hv] at hq; cases hq
  · rw [hv] at hq
    simp only [Except.ok.injEq] at hq
    subst hq
    exact ⟨(hcore _).1, (hcore _).2⟩

/-- C1 amended witness: on a one-row table at page 1 with page_size 10, the
mixin radius query reports total 1 while issuing zero COUNT queries. -/
theorem C1_amended_witness :
    GeoRepositoryMixin.get_by_radius unitEngine Fazenda.geom [sampleFazenda] 1 2 (1/2) 1 10
      = Except.ok (⟨[sampleFazenda], 1, 0⟩ : QueryResult (Fazenda Unit))
    ∧ (⟨[sampleFazenda], 1, 0⟩ : QueryResult (Fazenda Unit)).total
      = (GeoRepositoryMixin.radiusMatches unitEngine Fazenda.geom [sampleFazenda] 1 2 (1/2)).length := by
  have hval : GeoRepositoryMixin._validate_radius (1/2) = .ok () := by
    unfold GeoRepositoryMixin._validate_radius
    norm_num
  have hok : GeoRepositoryMixin.get_by_radius unitEngine Fazenda.geom [sampleFazenda] 1 2 (1/2) 1 10
      = Except.ok (⟨[sampleFazenda], 1, 0⟩ : QueryResult (Fazenda Unit)) := by
    unfold GeoRepositoryMixin.get_by_radius
    rw [hval]
    simp [GeoRepositoryMixin.radiusMatches, GeoRepositoryMixin._get_paginated_total,
      sqlSat, unitEngine, sampleFazenda]
  exact ⟨hok,
    ((C1_amended_count_strategy unitEngine Fazenda.geom Fazenda.geom [sampleFazenda]
        ([] : List (Fazenda Unit)) 1 2 (1/2) 1 10).2.1 _ hok).1⟩

/-- C2 amended: the two-stage filter (bounding-box overlap of the buffer
envelope AND geodesic within-distance, both at radius_km*1000 meters, the
conversion preceding both predicates) characterizes the matching set of
GeoRepositoryMixin.get_by_radius; the serving-path
FazendaRepository.get_by_radius instead applies only the geodesic
ST_DWithin predicate at radius_km*1000 meters. -/
theorem C2_amended_two_stage {M G : Type} (E : GeoEngine G)
    (geog_field : M → Option G) (db : List M) (db2 : List (Fazenda G))
    (lat lon r : ℚ) (page page_size : Nat) (q : QueryResult M)
    (hok : GeoRepositoryMixin.get_by_radius E geog_field db lat lon r page page_size
      = .ok q) :
    (∀ m, m ∈ GeoRepositoryMixin.radiusMatches E geog_field db lat lon r
      ↔ m ∈ db
        ∧ sqlSat (fun g => E.bboxOverlap g ⟨lon, lat⟩ (r * 1000)) (geog_field m) = true
        ∧ sqlSat (fun g => E.stDWithin g ⟨lon, lat⟩ (r * 1000)) (geog_field m) = true)
    ∧ q.entities
      = ((GeoRepositoryMixin.radiusMatches E geog_field db lat lon r).drop
          ((page - 1) * page_size)).take page_size
    ∧ (FazendaRepository.get_by_radius E db2 lat lon r page page_size).entities
      = ((db2.filter (fun f =>
            sqlSat (fun g => E.stDWithin g ⟨lon, lat⟩ (r * 1000)) f.geom)).drop
          ((page - 1) * page_size)).take page_size := by
  refine ⟨?_, ?_, rfl⟩
  · intro m
    unfold GeoRepositoryMixin.radiusMatches
    rw [List.mem_filter, Bool.and_eq_true]
  · unfold GeoRepositoryMixin.get_by_radius at hok
    rcases hv : GeoRepositoryMixin._validate_radius r with e | u
    · rw [hv] at hok; cases hok
    · rw [hv] at hok
      simp only [Except.ok.injEq] at hok
      subst hok
      rfl

/-- C2 amended witness: concrete application of the two-stage
characterization on a one-row table. -/
theorem C2_amended_witness :
    (⟨[sampleFazenda], 1, 0⟩ : QueryResult (Fazenda Unit)).entities
      = ((GeoRepositoryMixin.radiusMatches unitEngine Fazenda.geom [sampleFazenda] 1 2 (1/2)).drop
          ((1 - 1) * 10)).take 10 := by
  have hval : GeoRepositoryMixin._validate_radius (1/2) = .ok () := by
    unfold GeoRepositoryMixin._validate_radius
    norm_num
  have hok : GeoRepositoryMixin.get_by_radius unitEngine Fazenda.geom [sampleFazenda] 1 2 (1/2) 1 10
      = Except.ok (⟨[sampleFazenda], 1, 0⟩ : QueryResult (Fazenda Unit)) := by
    unfold GeoRepositoryMixin.get_by_radius
    rw [hval]
    simp [GeoRepositoryMixin.radiusMatches, GeoRepositoryMixin._get_paginated_total,
      sqlSat, unitEngine, sampleFazenda]
  exact (C2_amended_two_stage unitEngine Fazenda.geom [sampleFazenda]
      ([] : List (Fazenda Unit)) 1 2 (1/2) 1 10
      (⟨[sampleFazenda], 1, 0⟩ : QueryResult (Fazenda Unit)) hok).2.1

/-- C3 amended: GeoRepositoryMixin._validate_radius accepts exactly the radii
in (0, 20000] — rejecting 0 and 20000.1 while accepting 20000 — and a
validation failure aborts the mixin radius query before any storage work;
but on the serving path of the radius endpoint only the pydantic schema
runs, which checks the coordinate ranges and the strict positivity of the
radius with no upper bound. -/
theorem C3_amended_radius_validation (r : ℚ) :
    (GeoRepositoryMixin._validate_radius r = .ok () ↔ 0 < r ∧ r ≤ 20000)
    ∧ GeoRepositoryMixin._validate_radius 20000 = .ok ()
    ∧ GeoRepositoryMixin._validate_radius 20000.1
      = .error "Raio muito grande (maximo: 20000 km)"
    ∧ GeoRepositoryMixin._validate_radius 0 = .error "Raio deve ser maior que zero"
    ∧ (∀ {M G : Type} (E : GeoEngine G) (gf : M → Option G) (db : List M)
        (lat lon : ℚ) (page page_size : Nat) (e : String),
        GeoRepositoryMixin._validate_radius r = .error e →
        GeoRepositoryMixin.get_by_radius E gf db lat lon r page page_size = .error e)
    ∧ (∀ req : RaioBuscaRequest, req.validates = true ↔
        -90 ≤ req.latitude ∧ req.latitude ≤ 90
        ∧ -180 ≤ req.longitude ∧ req.longitude ≤ 180 ∧ 0 < req.raio_km) := by
  refine ⟨?_, ?_, ?_, ?_, ?_, ?_⟩
  · unfold GeoRepositoryMixin._validate_radius
    split_ifs with h1 h2
    · simp only [false_iff]
      rintro ⟨hp, -⟩
      exact absurd h1 (not_le.mpr hp)
    · simp only [false_iff]
      rintro ⟨-, hle⟩
      exact absurd h2 (not_lt.mpr hle)
    · simp only [true_iff]
      exact ⟨not_le.mp h1, not_lt.mp h2⟩
  · unfold GeoRepositoryMixin._validate_radius
    norm_num
  · unfold GeoRepositoryMixin._validate_radius
    norm_num
  · unfold GeoRepositoryMixin._validate_radius
    norm_num
  · intro M G E gf db lat lon page page_size e he
    unfold GeoRepositoryMixin.get_by_radius
    rw [he]
  · intro req
    unfold RaioBuscaRequest.validates
    simp only [Bool.and_eq_true, decide_eq_true_eq]
    tauto

/-- C3 amended witness: the mixin radius query on radius 0 aborts with the
validator error before touching the table. -/
theorem C3_amended_witness :
    GeoRepositoryMixin.get_by_radius unitEngine Fazenda.geom [sampleFazenda] 1 2 0 1 10
      = Except.error "Raio deve ser maior que zero" :=
  (C3_amended_radius_validation 0).2.2.2.2.1 unitEngine Fazenda.geom [sampleFazenda]
    1 2 1 10 "Raio deve ser maior que zero" rfl

/-- The ceiling the controllers compute through exact rational division
agrees with natural ceiling division. -/
theorem pyCeil_eq_ceilDiv (t s : Nat) (hs : 0 < s) : pyCeil t s = t ⌈/⌉ s := by
  apply eq_of_forall_ge_iff
  intro c
  unfold pyCeil
  rw [Int.toNat_le, Int.ceil_le, ceilDiv_le_iff_le_mul hs,
    div_le_iff₀ (by exact_mod_cast hs)]
  constructor
  · intro h
    push_cast at h
    have h2 : (t : ℚ) ≤ ((s * c : ℕ) : ℚ) := by push_cast; rw [mul_comm]; exact h
    exact_mod_cast h2
  · intro h
    have h2 : ((t : ℕ) : ℚ) ≤ ((s * c : ℕ) : ℚ) := by exact_mod_cast h
    push_cast at h2
    rw [mul_comm] at h2
    exact_mod_cast h2

/-- C5: for both spatial endpoints the envelope reports total_pages =
⌈total / page_size⌉ when total > 0 and 0 when total = 0; in particular a
point query with no matching rows answers items = [], total = 0,
total_pages = 0. -/
theorem C5_total_pages {G : Type} (E : GeoEngine G) (db : List (Fazenda G))
    (lat lon : ℚ) (req : RaioBuscaRequest) (page page_size : Nat)
    (hs : 0 < page_size) :
    (∀ total, totalPagesOf total page_size
        = if 0 < total then total ⌈/⌉ page_size else 0)
    ∧ (∀ env, fazendas_routes.servePoint E db lat lon page page_size = .success env →
        env.total_pages = (if 0 < env.total then env.total ⌈/⌉ page_size else 0)
        ∧ env.total = (FazendaRepository.pointMatches E db lat lon).length)
    ∧ (FazendaRepository.pointMatches E db lat lon = [] →
        fazendas_routes.servePoint E db lat lon page page_size
          = .success ⟨[], 0, page, page_size, 0⟩)
    ∧ (∀ env, fazendas_routes.serveRadius E db req page page_size = .success env →
        env.total_pages = (if 0 < env.total then env.total ⌈/⌉ page_size else 0)) := by
  have hpc : ∀ total : Nat, totalPagesOf total page_size
      = if 0 < total then total ⌈/⌉ page_size else 0 := by
    intro total
    unfold totalPagesOf
    by_cases h : 0 < total
    · rw [if_pos h, if_pos h, pyCeil_eq_ceilDiv total page_size hs]
    · rw [if_neg h, if_neg h]
  refine ⟨hpc, ?_, ?_, ?_⟩
  · intro env h
    simp only [fazendas_routes.servePoint, FazendaController.get_fazendas_by_point,
      Outcome.success.injEq] at h
    subst h
    exact ⟨hpc _, rfl⟩
  · intro h0
    simp only [fazendas_routes.servePoint, FazendaController.get_fazendas_by_point,
      FazendaRepository.get_by_point, h0, List.drop_nil, List.take_nil,
      List.length_nil, List.map_nil, Outcome.success.injEq]
    simp [totalPagesOf]
  · intro env h
    unfold fazendas_routes.serveRadius at h
    by_cases hv : req.validates = true
    · rw [if_pos hv] at h
      simp only [FazendaController.get_fazendas_by_radius, Outcome.success.injEq] at h
      subst h
      exact hpc _
    · rw [if_neg hv] at h
      cases h

/-- C5 witness: a point query over a table holding one null-geometry row
matches nothing and answers the empty envelope. -/
theorem C5_total_pages_witness :
    fazendas_routes.servePoint unitEngine [nullGeomFazenda] (-23.5505) (-46.6333) 1 10
      = .success ⟨[], 0, 1, 10, 0⟩ := by
  have h0 : FazendaRepository.pointMatches unitEngine [nullGeomFazenda]
      (-23.5505) (-46.6333) = [] := by
    simp [FazendaRepository.pointMatches, sqlSat, nullGeomFazenda]
  exact (C5_total_pages unitEngine [nullGeomFazenda] (-23.5505) (-46.6333)
    ⟨0, 0, 1⟩ 1 10 (by norm_num)).2.2.1 h0

/-- Concatenating the size-S chunks of a list up to index n rebuilds its
first n*S elements. -/
theorem flatten_take_chunks {α : Type} (S : Nat) (l : List α) :
    ∀ n : Nat, (List.map (fun i => (l.drop (i * S)).take S) (List.range n)).flatten
      = l.take (n * S) := by
  intro n
  induction n with
  | zero => simp
  | succ n ih =>
    rw [List.range_succ, List.map_append, List.flatten_append, ih]
    simp only [List.map_cons, List.map_nil, List.flatten_cons, List.flatten_nil,
      List.append_nil]
    rw [← List.take_add, Nat.succ_mul]

/-- C6: page p of the point query is the slice skip (p-1)*S / take S of the
filtered sequence, and concatenating pages 1..⌈T/S⌉ rebuilds exactly the T
matching records, with no duplicates and no omissions. -/
theorem C6_pagination_exact {G : Type} (E : GeoEngine G) (db : List (Fazenda G))
    (lat lon : ℚ) (S : Nat) (hS : 0 < S) :
    (∀ p, (FazendaRepository.get_by_point E db lat lon p S).entities
        = ((FazendaRepository.pointMatches E db lat lon).drop ((p - 1) * S)).take S)
    ∧ (List.map (fun p => (FazendaRepository.get_by_point E db lat lon p S).entities)
        (List.map (fun i => i + 1)
          (List.range ((FazendaRepository.pointMatches E db lat lon).length ⌈/⌉ S)))).flatten
      = FazendaRepository.pointMatches E db lat lon := by
  refine ⟨fun p => rfl, ?_⟩
  rw [List.map_map]
  have hmap : ((fun p => (FazendaRepository.get_by_point E db lat lon p S).entities)
        ∘ (fun i => i + 1))
      = fun i => ((FazendaRepository.pointMatches E db lat lon).drop (i * S)).take S := by
    funext i
    show (FazendaRepository.get_by_point E db lat lon (i + 1) S).entities = _
    unfold FazendaRepository.get_by_point
    simp only [Nat.add_sub_cancel]
  rw [hmap, flatten_take_chunks S (FazendaRepository.pointMatches E db lat lon)]
  apply List.take_of_length_le
  have h2 : (FazendaRepository.pointMatches E db lat lon).length
      ≤ S * ((FazendaRepository.pointMatches E db lat lon).length ⌈/⌉ S) :=
    (ceilDiv_le_iff_le_mul hS).mp le_rfl
  rwa [Nat.mul_comm] at h2

/-- C6 witness: concatenating all pages of size 1 over a two-row table (one
matching row) rebuilds the matching sequence. -/
theorem C6_pagination_witness :
    (List.map
        (fun p => (FazendaRepository.get_by_point unitEngine
          [sampleFazenda, nullGeomFazenda] 1 2 p 1).entities)
        (List.map (fun i => i + 1)
          (List.range ((FazendaRepository.pointMatches unitEngine
            [sampleFazenda, nullGeomFazenda] 1 2).length ⌈/⌉ 1)))).flatten
      = FazendaRepository.pointMatches unitEngine [sampleFazenda, nullGeomFazenda] 1 2 :=
  (C6_pagination_exact unitEngine [sampleFazenda, nullGeomFazenda] 1 2 1 (by norm_num)).2

/-- When the table ids are pairwise distinct, first() on the id filter finds
exactly the unique matching row. -/
theorem head_filter_of_unique_id {G : Type} {db : List (Fazenda G)} {fid : Nat}
    {f : Fazenda G} (hnod : (db.map Fazenda.id).Nodup) (hmem : f ∈ db)
    (hid : f.id = fid) :
    (db.filter (fun x => x.id == fid)).head? = some f := by
  induction db with
  | nil => cases hmem
  | cons a t ih =>
    rw [List.map_cons, List.nodup_cons] at hnod
    rcases List.mem_cons.mp hmem with heq | hmt
    · subst heq
      rw [List.filter_cons, if_pos (by simp [hid])]
      rfl
    · have hane : (a.id == fid) = false := by
        rw [beq_eq_false_iff_ne]
        intro hcontra
        have hin : a.id ∈ t.map Fazenda.id := by
          rw [hcontra, ← hid]
          exact List.mem_map_of_mem _ hmt
        exact hnod.1 hin
      rw [List.filter_cons, if_neg (by simp [hane])]
      exact ih hnod.2 hmt

/-- C7: with unique identifiers the lookup returns the single matching
record; with no matching record it answers a 404 whose detail contains the
requested identifier; and it never returns a success without a matching
record. -/
theorem C7_identifier_lookup {G : Type} (db : List (Fazenda G)) (fid : Nat) :
    ((db.map Fazenda.id).Nodup →
      ∀ f, f ∈ db → f.id = fid →
        fazendas_routes.serveById db fid
          = .success (FazendaResponse.model_validate f))
    ∧ ((∀ f, f ∈ db → f.id ≠ fid) →
        fazendas_routes.serveById db fid
          = .httpError 404 ("Fazenda com ID " ++ toString fid ++ " não encontrada")
        ∧ ∃ s t, ("Fazenda com ID " ++ toString fid ++ " não encontrada")
            = s ++ toString fid ++ t)
    ∧ (∀ v, fazendas_routes.serveById db fid = .success v →
        ∃ f, f ∈ db ∧ f.id = fid ∧ v = FazendaResponse.model_validate f) := by
  refine ⟨?_, ?_, ?_⟩
  · intro hnod f hmem hid
    unfold fazendas_routes.serveById FazendaController.get_fazenda_by_id
      FazendaRepository.get_by_id
    rw [head_filter_of_unique_id hnod hmem hid]
  · intro hnone
    have hfil : db.filter (fun x => x.id == fid) = [] := by
      rw [List.filter_eq_nil_iff]
      intro a ha
      simpa using hnone a ha
    constructor
    · unfold fazendas_routes.serveById FazendaController.get_fazenda_by_id
        FazendaRepository.get_by_id
      rw [hfil]
      rfl
    · exact ⟨"Fazenda com ID ", " não encontrada", rfl⟩
  · intro v hv
    unfold fazendas_routes.serveById FazendaController.get_fazenda_by_id
      FazendaRepository.get_by_id at hv
    rcases hq : db.filter (fun x => x.id == fid) with _ | ⟨a, rest⟩
    · rw [hq] at hv
      simp at hv
    · rw [hq] at hv
      simp only [List.head?_cons, Outcome.success.injEq] at hv
      have hma : a ∈ db.filter (fun x => x.id == fid) := by
        rw [hq]
        exact List.mem_cons_self a rest
      rw [List.mem_filter] at hma
      exact ⟨a, hma.1, by simpa using hma.2, hv.symm⟩

/-- C7 witness: on a one-row table the identifier lookup finds the row. -/
theorem C7_identifier_lookup_witness :
    fazendas_routes.serveById [sampleFazenda] 1
      = .success (FazendaResponse.model_validate sampleFazenda) :=
  (C7_identifier_lookup [sampleFazenda] 1).1 (by simp)
    sampleFazenda (List.mem_cons_self _ _) rfl

end MeuatGeo
